import Mathlib

/-!
# The `deltaX` visualization postprocessor

A shallow embedding of `src/deltaX.cc`: the scalar field evaluator
`deltaX<dim>::evaluate_vector_field` and the configuration component
`TemperatureAnomaly<dim>::declare_parameters` / `parse_parameters`.

Conventions of the embedding.

* `double` is an arbitrary field `α` (exact arithmetic); the theorems about the
  closed form take `α = ℝ`.  The C library routine `pow` is not part of the
  repository and is a parameter `pow : α → α → α`.  Rounding and not-a-number
  values have no counterpart here, so nothing is stated about them.
* `std::vector<T>` and `Vector<double>` are `List`s.  Reading `v[i]` beyond the
  end is reported as an explicit error value instead of being performed.
* `Assert (cond, exc)` is the checked assertion: when `cond` fails the call
  stops with `exc`.
* The geometry model and the introspection object reached through `this` are
  fields of a record handed to the evaluator.
* Sizes and indices (`unsigned int`, `std::size_t`) are natural numbers; a batch
  is taken to have fewer than `2^32` points, so that the conversion of `size()`
  to `unsigned int` keeps the value.
* Line 27 reads `maximal_depth()` into a constant that is never used; the query
  is kept in `GeometryModel` and the constant is left out.
* The stray `*` that follows the third `Assert` in the source text carries no
  meaning and is not modelled.
-/

set_option autoImplicit false

/-! ## Collaborators of the evaluator -/

/-- Ways in which a call of the evaluator can stop early. -/
inductive Exc where
  /-- Raised by `Assert (..., ExcInternalError())`. -/
  | ExcInternalError
  /-- Element access into a `Vector<double>` outside `[0, size)`. -/
  | ExcIndexRange
  /-- The access `v[i]` into a `std::vector` with `i >= v.size()`. -/
  | OutOfBounds
  deriving DecidableEq, Repr

/-- The two members of `this->introspection()` that the evaluator reads:
`n_components` and `component_indices.temperature`. -/
structure Introspection where
  n_components : Nat
  temperature : Nat
  deriving DecidableEq, Repr

/-- The two queries of `this->get_geometry_model()`; `P` is the type of a
position `Point<dim>`. -/
structure GeometryModel (P α : Type) where
  maximal_depth : α
  depth : P → α

/-- What the evaluator reaches through `this`. -/
structure SimulatorAccess (P α : Type) where
  get_geometry_model : GeometryModel P α
  introspection : Introspection

/-- The members of `DataPostprocessorInputs::Vector<dim>` that the evaluator
reads. -/
structure DataPostprocessorInputs (P α : Type) where
  solution_values : List (List α)
  evaluation_points : List P

/-- How a call of `evaluate_vector_field` ends: `error = none` when it ran to
completion, and the caller-owned buffer `computed_quantities` as the call left
it. -/
structure Outcome (α : Type) where
  error : Option Exc
  computed_quantities : List (List α)

namespace deltaX

variable {P α : Type} [Field α]

/-- Lines 37-40: the liquidus temperature at a given depth. -/
def T_liquidus (pow : α → α → α) (depth : α) : α :=
  let gravity : α := 1.4
  let density : α := 916
  let pressure := gravity * density * depth
  73.2 * pow (1 - pressure / 395) (1 / 9)

/-- Line 42: the scalar `deltaX` of a point with the given temperature and
depth. -/
def deltaX_value (pow : α → α → α) (temperature depth : α) : α :=
  1500 * (temperature - T_liquidus pow depth)

/-- Lines 35-43: one pass through the body of the loop, for the index `q`. -/
def loop_body (pow : α → α → α) (this : SimulatorAccess P α)
    (input_data : DataPostprocessorInputs P α) (q : Nat)
    (computed_quantities : List (List α)) : Except Exc (List (List α)) :=
  match input_data.solution_values[q]? with
  | none => .error .OutOfBounds
  | some solution =>
    match solution[this.introspection.temperature]? with
    | none => .error .ExcIndexRange
    | some temperature =>
      match input_data.evaluation_points[q]? with
      | none => .error .OutOfBounds
      | some point =>
        let depth := this.get_geometry_model.depth point
        let deltaX := deltaX_value pow temperature depth
        match computed_quantities[q]? with
        | none => .error .OutOfBounds
        | some [] => .error .ExcIndexRange
        | some (_ :: rest) => .ok (computed_quantities.set q (deltaX :: rest))

/-- Lines 33-44: `for (unsigned int q=0; q<n_quadrature_points; ++q)`, entered
at index `q` with `remaining = n_quadrature_points - q` passes still to run. -/
def for_loop (pow : α → α → α) (this : SimulatorAccess P α)
    (input_data : DataPostprocessorInputs P α) :
    Nat → Nat → List (List α) → Outcome α
  | 0, _, computed_quantities => ⟨none, computed_quantities⟩
  | remaining + 1, q, computed_quantities =>
    match loop_body pow this input_data q computed_quantities with
    | .error e => ⟨some e, computed_quantities⟩
    | .ok written => for_loop pow this input_data remaining (q + 1) written

/-- Lines 24-45: `deltaX<dim>::evaluate_vector_field`. -/
def evaluate_vector_field (pow : α → α → α) (this : SimulatorAccess P α)
    (input_data : DataPostprocessorInputs P α)
    (computed_quantities : List (List α)) : Outcome α :=
  let n_quadrature_points := input_data.solution_values.length
  if computed_quantities.length ≠ n_quadrature_points then
    ⟨some .ExcInternalError, computed_quantities⟩
  else
    match computed_quantities[0]? with
    | none => ⟨some .OutOfBounds, computed_quantities⟩
    | some first_slot =>
      if first_slot.length ≠ 1 then
        ⟨some .ExcInternalError, computed_quantities⟩
      else
        match input_data.solution_values[0]? with
        | none => ⟨some .OutOfBounds, computed_quantities⟩
        | some first_solution =>
          if first_solution.length ≠ this.introspection.n_components then
            ⟨some .ExcInternalError, computed_quantities⟩
          else
            for_loop pow this input_data n_quadrature_points 0 computed_quantities

end deltaX

/-! ## The configuration store

`ParameterHandler` and `Patterns` belong to the finite-element library, not to
the repository.  The definitions below follow the library's documented
behaviour for the operations the source calls: entries are kept as strings
under the path of subsections in which they were declared, every entry carries
the pattern it was declared with, and a value is accepted by `set` only when it
matches that pattern.  Leading and trailing blanks of a value are not modelled.
-/

/-- The patterns the source declares: `Patterns::Integer (lower, upper)` and
`Patterns::Bool ()`. -/
inductive Patterns where
  | Integer (lower_bound upper_bound : Int)
  | Bool
  deriving DecidableEq, Repr

/-- The default upper bound of `Patterns::Integer`, the largest `int`. -/
def max_int_value : Int := 2147483647

/-- Reads a run of decimal digits, most significant first, onto `value`. -/
def digits_to_nat : List Char → Nat → Option Nat
  | [], value => some value
  | c :: rest, value =>
    if c.isDigit then digits_to_nat rest (10 * value + (c.toNat - 48)) else none

/-- Conversion of a string to an integer: an optional sign followed by at least
one decimal digit and nothing else. -/
def string_to_int (s : String) : Option Int :=
  match s.data with
  | [] => none
  | '-' :: digits =>
    if digits = [] then none else (digits_to_nat digits 0).map (fun n => -(n : Int))
  | '+' :: digits =>
    if digits = [] then none else (digits_to_nat digits 0).map (fun n => (n : Int))
  | digits => (digits_to_nat digits 0).map (fun n => (n : Int))

/-- Whether a pattern accepts a string (`PatternBase::match`).  The boolean
pattern is the selection `true|false`. -/
def matches_pattern : Patterns → String → Bool
  | .Integer lower_bound upper_bound, test_string =>
    match string_to_int test_string with
    | none => false
    | some i =>
      if lower_bound ≤ upper_bound then decide (lower_bound ≤ i ∧ i ≤ upper_bound) else true
  | .Bool, test_string => test_string = "true" || test_string = "false"

/-- Ways in which an operation on the configuration store can fail. -/
inductive PrmExc where
  /-- The entry was never declared in the current subsection. -/
  | ExcEntryUndeclared
  /-- The value offered for an entry does not match the entry's pattern. -/
  | ExcValueDoesNotMatchPattern
  /-- The stored string cannot be converted to the requested type. -/
  | ExcConversion
  deriving DecidableEq, Repr

/-- One declared entry of the store. -/
structure Entry where
  value : String
  default_value : String
  pattern : Patterns
  documentation : String
  deriving DecidableEq, Repr

/-- The store: the path of subsections currently entered, and the declared
entries, found by the path of their subsection and their name. -/
structure ParameterHandler where
  subsection_path : List String
  entries : List String → String → Option Entry

namespace ParameterHandler

/-- The store in which nothing has been declared, at top level. -/
def empty : ParameterHandler := ⟨[], fun _ _ => none⟩

def enter_subsection (prm : ParameterHandler) (subsection : String) : ParameterHandler :=
  { prm with subsection_path := prm.subsection_path ++ [subsection] }

def leave_subsection (prm : ParameterHandler) : ParameterHandler :=
  { prm with subsection_path := prm.subsection_path.dropLast }

/-- Puts `entry` into the current subsection. -/
def put (prm : ParameterHandler) (name : String) (entry : Entry) : ParameterHandler :=
  { prm with
    entries := fun path key =>
      if path = prm.subsection_path ∧ key = name then some entry else prm.entries path key }

/-- Declares an entry of the current subsection with its default value, which
must match the pattern. -/
def declare_entry (prm : ParameterHandler) (entry default_value : String)
    (pattern : Patterns) (documentation : String) : Except PrmExc ParameterHandler :=
  if matches_pattern pattern default_value then
    .ok (prm.put entry ⟨default_value, default_value, pattern, documentation⟩)
  else
    .error .ExcValueDoesNotMatchPattern

/-- Gives a declared entry of the current subsection a new value, which must
match the pattern the entry was declared with. -/
def set (prm : ParameterHandler) (entry_string new_value : String) :
    Except PrmExc ParameterHandler :=
  match prm.entries prm.subsection_path entry_string with
  | none => .error .ExcEntryUndeclared
  | some entry =>
    if matches_pattern entry.pattern new_value then
      .ok (prm.put entry_string { entry with value := new_value })
    else
      .error .ExcValueDoesNotMatchPattern

/-- The current value of an entry of the current subsection. -/
def get (prm : ParameterHandler) (entry_string : String) : Except PrmExc String :=
  match prm.entries prm.subsection_path entry_string with
  | none => .error .ExcEntryUndeclared
  | some entry => .ok entry.value

def get_integer (prm : ParameterHandler) (entry_string : String) : Except PrmExc Int :=
  match prm.get entry_string with
  | .error e => .error e
  | .ok s =>
    match string_to_int s with
    | none => .error .ExcConversion
    | some i => .ok i

def get_bool (prm : ParameterHandler) (entry_string : String) : Except PrmExc Bool :=
  match prm.get entry_string with
  | .error e => .error e
  | .ok s =>
    if s = "true" ∨ s = "yes" then .ok true
    else if s = "false" ∨ s = "no" then .ok false
    else .error .ExcConversion

end ParameterHandler

/-! ## The configuration component -/

/-- Modelled from the spec: the header `deltaX.h`, which declares the members
that `parse_parameters` assigns, is not among the sources.  The spec's
Configuration Record has three settings, `depth_slices` (the member `n_slices`
of the source), `extrapolate_surface` and `extrapolate_bottom`. -/
structure TemperatureAnomaly where
  n_slices : Int
  extrapolate_surface : Bool
  extrapolate_bottom : Bool
  deriving DecidableEq, Repr

namespace TemperatureAnomaly

/-- Lines 47-77: `TemperatureAnomaly<dim>::declare_parameters`. -/
def declare_parameters (prm : ParameterHandler) : Except PrmExc ParameterHandler := do
  let prm := prm.enter_subsection "Postprocess"
  let prm := prm.enter_subsection "Visualization"
  let prm := prm.enter_subsection "deltaX"
  let prm ← prm.declare_entry "Number of depth slices" "20"
    (Patterns.Integer 1 max_int_value)
    "Number of depth slices used to define average temperature."
  let prm ← prm.declare_entry "Use maximal temperature for bottom" "true"
    Patterns.Bool
    ("If true, use the specified boundary temperatures as average temperatures at the surface. "
      ++ "If false, extrapolate the temperature gradient between the first and second cells to the surface. "
      ++ "This option will only work for models with a fixed surface temperature. ")
  let prm ← prm.declare_entry "Use minimal temperature for surface" "true"
    Patterns.Bool
    ("Whether to use the minimal specified boundary temperature as the bottom boundary temperature. "
      ++ "This option will only work for models with a fixed bottom boundary temperature. ")
  let prm := prm.leave_subsection
  let prm := prm.leave_subsection
  let prm := prm.leave_subsection
  return prm

/-- Lines 78-97: `TemperatureAnomaly<dim>::parse_parameters`.  The object is
passed in and handed back with the three members assigned. -/
def parse_parameters (self : TemperatureAnomaly) (prm : ParameterHandler) :
    Except PrmExc (TemperatureAnomaly × ParameterHandler) := do
  let prm := prm.enter_subsection "Postprocess"
  let prm := prm.enter_subsection "Visualization"
  let prm := prm.enter_subsection "deltaX"
  let n_slices ← prm.get_integer "Number of depth slices"
  let self := { self with n_slices := n_slices }
  let use_minimal ← prm.get_bool "Use minimal temperature for surface"
  let self := { self with extrapolate_surface := !use_minimal }
  let use_maximal ← prm.get_bool "Use maximal temperature for bottom"
  let self := { self with extrapolate_bottom := !use_maximal }
  let prm := prm.leave_subsection
  let prm := prm.leave_subsection
  let prm := prm.leave_subsection
  return (self, prm)

/-- The subsection in which the three entries live, seen from `path`. -/
def section_path (path : List String) : List String :=
  path ++ ["Postprocess", "Visualization", "deltaX"]

/-- The host's use of the component during set-up: the entries are declared,
the user's assignments `input` (entry name and value, all inside the
subsection `Postprocess / Visualization / deltaX`) are handed to the store one
after the other, and the store is parsed. -/
def configure (self : TemperatureAnomaly) (prm : ParameterHandler)
    (input : List (String × String)) : Except PrmExc TemperatureAnomaly := do
  let prm ← declare_parameters prm
  let prm := prm.enter_subsection "Postprocess"
  let prm := prm.enter_subsection "Visualization"
  let prm := prm.enter_subsection "deltaX"
  let prm ← input.foldlM (fun store line => store.set line.1 line.2) prm
  let prm := prm.leave_subsection
  let prm := prm.leave_subsection
  let prm := prm.leave_subsection
  let (self, _) ← parse_parameters self prm
  return self

end TemperatureAnomaly

/-- In the subsection `path` of the store the entry `name` is declared with
`pattern` and holds a value that matches it. -/
def ParameterHandler.holds_valid (prm : ParameterHandler) (path : List String)
    (name : String) (pattern : Patterns) : Prop :=
  ∃ e, prm.entries path name = some e ∧ e.pattern = pattern ∧
    matches_pattern pattern e.value = true

/-- The three entries of the component are declared in the subsection `path`
with the patterns of `declare_parameters` and hold matching values. -/
def TemperatureAnomaly.declared_in (prm : ParameterHandler) (path : List String) : Prop :=
  prm.holds_valid path "Number of depth slices" (Patterns.Integer 1 max_int_value) ∧
  prm.holds_valid path "Use maximal temperature for bottom" Patterns.Bool ∧
  prm.holds_valid path "Use minimal temperature for surface" Patterns.Bool

/-- A store at top level in which the three entries of the component are
declared and hold `7`, `true` (bottom) and `false` (surface). -/
def TemperatureAnomaly.sample_store : ParameterHandler :=
  ⟨[], fun path key =>
    if path = ["Postprocess", "Visualization", "deltaX"] then
      if key = "Number of depth slices" then
        some ⟨"7", "20", Patterns.Integer 1 max_int_value, ""⟩
      else if key = "Use maximal temperature for bottom" then
        some ⟨"true", "true", Patterns.Bool, ""⟩
      else if key = "Use minimal temperature for surface" then
        some ⟨"false", "true", Patterns.Bool, ""⟩
      else none
    else none⟩

/-! ## Lemmas on the evaluator -/

namespace deltaX

variable {P α : Type} [Field α]

/-- One pass of the loop body on a point whose reads and whose slot are all in
range writes the point's `deltaX` into component 0 of slot `q`. -/
theorem loop_body_ok (pow : α → α → α) (this : SimulatorAccess P α)
    (input_data : DataPostprocessorInputs P α) (q : Nat) (cq : List (List α))
    (solution : List α) (T : α) (point : P) (x : α)
    (h1 : input_data.solution_values[q]? = some solution)
    (h2 : solution[this.introspection.temperature]? = some T)
    (h3 : input_data.evaluation_points[q]? = some point)
    (h4 : cq[q]? = some [x]) :
    loop_body pow this input_data q cq
      = .ok (cq.set q [deltaX_value pow T (this.get_geometry_model.depth point)]) := by
  simp [loop_body, h1, h2, h3, h4]

theorem eq_singleton_of_length_one {β : Type} {l : List β} (h : l.length = 1) : ∃ x, l = [x] := by
  match l, h with
  | [x], _ => exact ⟨x, rfl⟩

/-- The invariant of the loop on a batch whose vectors all have the expected
sizes. -/
theorem for_loop_spec (pow : α → α → α) (this : SimulatorAccess P α)
    (input_data : DataPostprocessorInputs P α)
    (hpts : input_data.evaluation_points.length = input_data.solution_values.length)
    (hsol : ∀ (i : Nat) (sol : List α), input_data.solution_values[i]? = some sol →
      this.introspection.temperature < sol.length) :
    ∀ (k q : Nat) (cq : List (List α)),
      q + k = input_data.solution_values.length →
      cq.length = input_data.solution_values.length →
      (∀ (i : Nat) (s : List α), cq[i]? = some s → s.length = 1) →
      (for_loop pow this input_data k q cq).error = none ∧
      (for_loop pow this input_data k q cq).computed_quantities.length
        = input_data.solution_values.length ∧
      (∀ i, i < q →
        (for_loop pow this input_data k q cq).computed_quantities[i]? = cq[i]?) ∧
      (∀ i, q ≤ i → i < input_data.solution_values.length →
        ∃ sol T point, input_data.solution_values[i]? = some sol ∧
          sol[this.introspection.temperature]? = some T ∧
          input_data.evaluation_points[i]? = some point ∧
          (for_loop pow this input_data k q cq).computed_quantities[i]?
            = some [deltaX_value pow T (this.get_geometry_model.depth point)]) := by
  intro k
  induction k with
  | zero =>
    intro q cq hq hlen _
    refine ⟨rfl, hlen, fun _ _ => rfl, ?_⟩
    intro i hqi hi
    omega
  | succ k ih =>
    intro q cq hq hlen hslots
    have hqN : q < input_data.solution_values.length := by omega
    obtain ⟨sol, hsolq⟩ : ∃ sol, input_data.solution_values[q]? = some sol :=
      ⟨_, List.getElem?_eq_getElem hqN⟩
    have htl := hsol q sol hsolq
    obtain ⟨T, hT⟩ : ∃ T, sol[this.introspection.temperature]? = some T :=
      ⟨_, List.getElem?_eq_getElem htl⟩
    obtain ⟨point, hp⟩ : ∃ p, input_data.evaluation_points[q]? = some p :=
      ⟨_, List.getElem?_eq_getElem (by omega)⟩
    obtain ⟨slot, hslot⟩ : ∃ s, cq[q]? = some s :=
      ⟨_, List.getElem?_eq_getElem (by omega)⟩
    obtain ⟨x, rfl⟩ := eq_singleton_of_length_one (hslots q slot hslot)
    have hbody := loop_body_ok pow this input_data q cq sol T point x hsolq hT hp hslot
    have hstep : for_loop pow this input_data (k + 1) q cq
        = for_loop pow this input_data k (q + 1)
            (cq.set q [deltaX_value pow T (this.get_geometry_model.depth point)]) := by
      simp [for_loop, hbody]
    rw [hstep]
    have hlen2 : (cq.set q [deltaX_value pow T (this.get_geometry_model.depth point)]).length
        = input_data.solution_values.length := by simp [hlen]
    have hslots2 : ∀ (i : Nat) (s : List α),
        (cq.set q [deltaX_value pow T (this.get_geometry_model.depth point)])[i]? = some s →
        s.length = 1 := by
      intro i s his
      rw [List.getElem?_set] at his
      by_cases hqi : q = i
      · have hq2 : q < cq.length := by omega
        simp [hqi ▸ hq2, hqi] at his
        simp [← his]
      · simp [hqi] at his
        exact hslots i s his
    obtain ⟨e1, e2, e3, e4⟩ := ih (q + 1) _ (by omega) hlen2 hslots2
    refine ⟨e1, e2, ?_, ?_⟩
    · intro i hi
      rw [e3 i (by omega), List.getElem?_set_ne (by omega)]
    · intro i hqi hi
      by_cases hqi2 : q = i
      · subst hqi2
        refine ⟨sol, T, point, hsolq, hT, hp, ?_⟩
        rw [e3 q (by omega), List.getElem?_set_self (by omega)]
      · exact e4 i (by omega) hi

end deltaX

/-! ## Lemmas on the configuration component -/

namespace TemperatureAnomaly

theorem leave_enter (prm : ParameterHandler) (s : String) :
    (prm.enter_subsection s).leave_subsection = prm := by
  simp [ParameterHandler.enter_subsection, ParameterHandler.leave_subsection]

theorem declare_parameters_ok (prm : ParameterHandler) :
    ∃ declared, declare_parameters prm = .ok declared ∧
      declared.subsection_path = prm.subsection_path ∧
      (∃ e, declared.entries (section_path prm.subsection_path) "Number of depth slices" = some e ∧
        e.value = "20" ∧ e.pattern = Patterns.Integer 1 max_int_value) ∧
      (∃ e, declared.entries (section_path prm.subsection_path) "Use maximal temperature for bottom" = some e ∧
        e.value = "true" ∧ e.pattern = Patterns.Bool) ∧
      (∃ e, declared.entries (section_path prm.subsection_path) "Use minimal temperature for surface" = some e ∧
        e.value = "true" ∧ e.pattern = Patterns.Bool) := by
  have h1 : matches_pattern (Patterns.Integer 1 max_int_value) "20" = true := by decide
  have h2 : matches_pattern Patterns.Bool "true" = true := by decide
  cases h : declare_parameters prm with
  | error e =>
    simp only [declare_parameters, ParameterHandler.declare_entry, h1, h2, if_true, bind, Except.bind, pure,
      Except.pure] at h
    cases h
  | ok d =>
    simp only [declare_parameters, ParameterHandler.declare_entry, h1, h2, if_true, bind, Except.bind, pure,
      Except.pure, Except.ok.injEq] at h
    subst h
    refine ⟨_, rfl, ?_⟩
    simp [ParameterHandler.put, ParameterHandler.enter_subsection, ParameterHandler.leave_subsection, section_path]

theorem section_path_enter (prm : ParameterHandler) :
    (((prm.enter_subsection "Postprocess").enter_subsection "Visualization").enter_subsection
      "deltaX").subsection_path = section_path prm.subsection_path := by
  simp [ParameterHandler.enter_subsection, section_path]

theorem get_bool_of_pattern (prm : ParameterHandler) (name : String) (e : Entry)
    (h : prm.entries prm.subsection_path name = some e)
    (hv : matches_pattern Patterns.Bool e.value = true) :
    prm.get_bool name = .ok (decide (e.value = "true")) := by
  simp only [matches_pattern, Bool.or_eq_true, decide_eq_true_eq] at hv
  rcases hv with hv | hv <;> simp [ParameterHandler.get_bool, ParameterHandler.get, h, hv]

theorem get_integer_of_pattern (prm : ParameterHandler) (name : String) (e : Entry)
    (lower upper : Int) (hb : lower ≤ upper)
    (h : prm.entries prm.subsection_path name = some e)
    (hv : matches_pattern (Patterns.Integer lower upper) e.value = true) :
    ∃ n, string_to_int e.value = some n ∧ lower ≤ n ∧ n ≤ upper ∧
      prm.get_integer name = .ok n := by
  simp only [matches_pattern] at hv
  cases hs : string_to_int e.value with
  | none => simp [hs] at hv
  | some n =>
    simp only [hs, hb, if_true, decide_eq_true_eq] at hv
    exact ⟨n, rfl, hv.1, hv.2, by simp [ParameterHandler.get_integer, ParameterHandler.get, h, hs]⟩

theorem parse_parameters_eq (self : TemperatureAnomaly) (prm : ParameterHandler)
    (n : Int) (use_minimal use_maximal : Bool)
    (h1 : (((prm.enter_subsection "Postprocess").enter_subsection "Visualization").enter_subsection
      "deltaX").get_integer "Number of depth slices" = .ok n)
    (h2 : (((prm.enter_subsection "Postprocess").enter_subsection "Visualization").enter_subsection
      "deltaX").get_bool "Use minimal temperature for surface" = .ok use_minimal)
    (h3 : (((prm.enter_subsection "Postprocess").enter_subsection "Visualization").enter_subsection
      "deltaX").get_bool "Use maximal temperature for bottom" = .ok use_maximal) :
    parse_parameters self prm = .ok (⟨n, !use_minimal, !use_maximal⟩, prm) := by
  simp only [parse_parameters, h1, h2, h3, bind, Except.bind, pure, Except.pure, leave_enter]

theorem set_ok_preserves (prm stored : ParameterHandler) (k v : String)
    (h : prm.set k v = .ok stored) :
    stored.subsection_path = prm.subsection_path ∧
    ∀ name pattern, prm.holds_valid prm.subsection_path name pattern →
      stored.holds_valid prm.subsection_path name pattern := by
  unfold ParameterHandler.set at h
  cases he : prm.entries prm.subsection_path k with
  | none => simp [he] at h
  | some entry =>
    simp only [he] at h
    by_cases hm : matches_pattern entry.pattern v = true
    · simp only [hm, if_true, Except.ok.injEq] at h
      subst h
      refine ⟨rfl, ?_⟩
      intro name pattern hv
      obtain ⟨e, h1, h2, h3⟩ := hv
      by_cases hk : name = k
      · subst hk
        rw [he] at h1
        cases h1
        exact ⟨{ entry with value := v }, by simp [ParameterHandler.put], h2, by rw [← h2]; exact hm⟩
      · exact ⟨e, by simp [ParameterHandler.put, hk, h1], h2, h3⟩
    · simp [hm] at h

theorem set_rejects (prm : ParameterHandler) (name v : String) (pattern : Patterns)
    (hv : prm.holds_valid prm.subsection_path name pattern)
    (hbad : matches_pattern pattern v = false) :
    prm.set name v = .error .ExcValueDoesNotMatchPattern := by
  obtain ⟨e, h1, h2, _⟩ := hv
  simp [ParameterHandler.set, h1, h2, hbad]

theorem foldlM_set_preserves (input : List (String × String)) :
    ∀ (prm stored : ParameterHandler),
      input.foldlM (fun store line => ParameterHandler.set store line.1 line.2) prm = .ok stored →
      stored.subsection_path = prm.subsection_path ∧
      ∀ name pattern, prm.holds_valid prm.subsection_path name pattern →
        stored.holds_valid prm.subsection_path name pattern := by
  induction input with
  | nil =>
    intro prm stored h
    simp only [List.foldlM_nil, pure, Except.pure, Except.ok.injEq] at h
    subst h
    exact ⟨rfl, fun _ _ hv => hv⟩
  | cons line rest ih =>
    intro prm stored h
    simp only [List.foldlM_cons, bind, Except.bind] at h
    cases hs : prm.set line.1 line.2 with
    | error e => simp [hs] at h
    | ok mid =>
      simp only [hs] at h
      obtain ⟨p1, p2⟩ := set_ok_preserves prm mid _ _ hs
      obtain ⟨q1, q2⟩ := ih mid stored h
      refine ⟨q1.trans p1, ?_⟩
      intro name pattern hv
      have := q2 name pattern (p1 ▸ p2 name pattern hv)
      rwa [p1] at this

theorem foldlM_set_rejects (input : List (String × String)) :
    ∀ (prm : ParameterHandler) (name v : String) (pattern : Patterns),
      (name, v) ∈ input →
      prm.holds_valid prm.subsection_path name pattern →
      matches_pattern pattern v = false →
      ∃ e, input.foldlM (fun store line => ParameterHandler.set store line.1 line.2) prm
        = .error e := by
  induction input with
  | nil => intro prm name v pattern hmem; simp at hmem
  | cons line rest ih =>
    intro prm name v pattern hmem hv hbad
    simp only [List.foldlM_cons, bind, Except.bind]
    cases hs : prm.set line.1 line.2 with
    | error e => exact ⟨e, rfl⟩
    | ok mid =>
      simp only []
      obtain ⟨p1, p2⟩ := set_ok_preserves prm mid _ _ hs
      rcases List.mem_cons.mp hmem with heq | hrest
      · subst heq
        rw [set_rejects prm name v pattern hv hbad] at hs
        cases hs
      · exact ih mid name v pattern hrest (p1 ▸ p2 name pattern hv) hbad

end TemperatureAnomaly

/-! ## The evaluator: claims C1, C2, C8, C9, C10 -/

namespace deltaX

variable {P α : Type} [Field α]

/-- On a non-empty batch that passes the three assertions and whose reads are
all in range, the evaluator runs to completion and slot `i` holds the `deltaX`
of point `i`. -/
theorem evaluate_vector_field_spec (pow : α → α → α) (this : SimulatorAccess P α)
    (input_data : DataPostprocessorInputs P α) (cq : List (List α))
    (hN : 0 < input_data.solution_values.length)
    (hpts : input_data.evaluation_points.length = input_data.solution_values.length)
    (hfirst : ∀ sol : List α, input_data.solution_values[0]? = some sol →
      sol.length = this.introspection.n_components)
    (hsol : ∀ (i : Nat) (sol : List α), input_data.solution_values[i]? = some sol →
      this.introspection.temperature < sol.length)
    (hcq : cq.length = input_data.solution_values.length)
    (hslots : ∀ (i : Nat) (s : List α), cq[i]? = some s → s.length = 1) :
    (evaluate_vector_field pow this input_data cq).error = none ∧
    (evaluate_vector_field pow this input_data cq).computed_quantities.length
      = input_data.solution_values.length ∧
    (∀ i, i < input_data.solution_values.length →
      ∃ sol T point, input_data.solution_values[i]? = some sol ∧
        sol[this.introspection.temperature]? = some T ∧
        input_data.evaluation_points[i]? = some point ∧
        (evaluate_vector_field pow this input_data cq).computed_quantities[i]?
          = some [deltaX_value pow T (this.get_geometry_model.depth point)]) := by
  have h0 : cq[0]? = some cq[0] := List.getElem?_eq_getElem (by omega)
  have h1 : (cq[0]).length = 1 := hslots 0 _ h0
  have h2 : input_data.solution_values[0]? = some input_data.solution_values[0] :=
    List.getElem?_eq_getElem hN
  have h3 := hfirst _ h2
  have hrun : evaluate_vector_field pow this input_data cq
      = for_loop pow this input_data input_data.solution_values.length 0 cq := by
    simp [evaluate_vector_field, hcq, h0, h1, h2, h3]
  rw [hrun]
  obtain ⟨e1, e2, _, e4⟩ :=
    for_loop_spec pow this input_data hpts hsol input_data.solution_values.length 0 cq
      (by omega) hcq hslots
  exact ⟨e1, e2, fun i hi => e4 i (Nat.zero_le i) hi⟩

/-- C2: on a batch of `N >= 1` sample points with `N` single-component result
slots and solution vectors of the expected size, the evaluator runs to
completion, leaves exactly `N` result slots, and slot `q` holds the one scalar
`deltaX_value` computed from the temperature and the depth of point `q`. -/
theorem C2_batch_shape (pow : α → α → α) (this : SimulatorAccess P α)
    (input_data : DataPostprocessorInputs P α) (computed_quantities : List (List α))
    (hN : 1 ≤ input_data.solution_values.length)
    (hpts : input_data.evaluation_points.length = input_data.solution_values.length)
    (hcomp : ∀ sol ∈ input_data.solution_values,
      sol.length = this.introspection.n_components)
    (htemp : this.introspection.temperature < this.introspection.n_components)
    (hcq : computed_quantities.length = input_data.solution_values.length)
    (hslots : ∀ slot ∈ computed_quantities, slot.length = 1) :
    (evaluate_vector_field pow this input_data computed_quantities).error = none ∧
    (evaluate_vector_field pow this input_data computed_quantities).computed_quantities.length
      = input_data.solution_values.length ∧
    (∀ q, q < input_data.solution_values.length →
      ∃ solution temperature point,
        input_data.solution_values[q]? = some solution ∧
        solution[this.introspection.temperature]? = some temperature ∧
        input_data.evaluation_points[q]? = some point ∧
        (evaluate_vector_field pow this input_data computed_quantities).computed_quantities[q]?
          = some [deltaX_value pow temperature (this.get_geometry_model.depth point)]) := by
  apply evaluate_vector_field_spec pow this input_data computed_quantities hN hpts
  · intro sol h
    exact hcomp sol (List.mem_iff_getElem?.mpr ⟨0, h⟩)
  · intro i sol h
    rw [hcomp sol (List.mem_iff_getElem?.mpr ⟨i, h⟩)]
    exact htemp
  · exact hcq
  · intro i s h
    exact hslots s (List.mem_iff_getElem?.mpr ⟨i, h⟩)

/-- C2 at the batch of two points with temperatures `300` and `310` at the
positions `1/10` and `2/10` of a one-dimensional domain whose depth is the
coordinate. -/
theorem C2_batch_shape_witness :
    (1 : Nat) ≤ ([[300], [310]] : List (List ℝ)).length ∧
    (evaluate_vector_field (fun x y : ℝ => x ^ y) ⟨⟨1, fun p : ℝ => p⟩, ⟨1, 0⟩⟩
      ⟨[[300], [310]], [1 / 10, 2 / 10]⟩ [[0], [0]]).error = none ∧
    (evaluate_vector_field (fun x y : ℝ => x ^ y) ⟨⟨1, fun p : ℝ => p⟩, ⟨1, 0⟩⟩
      ⟨[[300], [310]], [1 / 10, 2 / 10]⟩ [[0], [0]]).computed_quantities.length = 2 :=
  have h := C2_batch_shape (fun x y : ℝ => x ^ y)
    (⟨⟨1, fun p : ℝ => p⟩, ⟨1, 0⟩⟩ : SimulatorAccess ℝ ℝ)
    ⟨[[300], [310]], [1 / 10, 2 / 10]⟩ [[0], [0]] (by decide) rfl (by simp) (by decide) rfl
    (by simp)
  ⟨by decide, h.1, h.2.1⟩

/-- The scalar of a point in closed form, for a `pow` that is the real power on
non-negative bases and a pressure of at most 395. -/
theorem deltaX_value_closed_form (pow : ℝ → ℝ → ℝ)
    (hpow : ∀ x y : ℝ, 0 ≤ x → pow x y = x ^ y) (T d : ℝ)
    (hpr : 1.4 * 916 * d ≤ 395) :
    deltaX_value pow T d = 1500 * (T - 73.2 * (1 - 1.4 * 916 * d / 395) ^ ((1 : ℝ) / 9)) := by
  have hbase : (0 : ℝ) ≤ 1 - 1.4 * 916 * d / 395 := by
    have : 1.4 * 916 * d / 395 ≤ 1 := (div_le_one (by norm_num)).mpr hpr
    linarith
  simp only [deltaX_value, T_liquidus]
  rw [hpow _ _ hbase]

/-- C1: for a sample point with temperature `T` and depth `d >= 0` such that
`1.4*916*d <= 395`, in a batch that passes the checks of the evaluator, the
scalar written into the point's slot is
`1500*(T - 73.2*(1 - 1.4*916*d/395)^(1/9))` over the reals, `pow` being the real
power on non-negative bases. -/
theorem C1_closed_form (pow : ℝ → ℝ → ℝ) (this : SimulatorAccess P ℝ)
    (input_data : DataPostprocessorInputs P ℝ) (computed_quantities : List (List ℝ))
    (q : Nat) (solution : List ℝ) (T : ℝ) (point : P)
    (hpow : ∀ x y : ℝ, 0 ≤ x → pow x y = x ^ y)
    (hpts : input_data.evaluation_points.length = input_data.solution_values.length)
    (hcomp : ∀ sol ∈ input_data.solution_values,
      sol.length = this.introspection.n_components)
    (htemp : this.introspection.temperature < this.introspection.n_components)
    (hcq : computed_quantities.length = input_data.solution_values.length)
    (hslots : ∀ slot ∈ computed_quantities, slot.length = 1)
    (hq : input_data.solution_values[q]? = some solution)
    (hT : solution[this.introspection.temperature]? = some T)
    (hp : input_data.evaluation_points[q]? = some point)
    (_hd : 0 ≤ this.get_geometry_model.depth point)
    (hpr : 1.4 * 916 * this.get_geometry_model.depth point ≤ 395) :
    (evaluate_vector_field pow this input_data computed_quantities).error = none ∧
    (evaluate_vector_field pow this input_data computed_quantities).computed_quantities[q]?
      = some [1500 * (T - 73.2 *
          (1 - 1.4 * 916 * this.get_geometry_model.depth point / 395) ^ ((1 : ℝ) / 9))] := by
  have hqN : q < input_data.solution_values.length := by
    by_contra hge
    rw [List.getElem?_eq_none (by omega)] at hq
    cases hq
  obtain ⟨e1, _, e3⟩ := evaluate_vector_field_spec pow this input_data computed_quantities
    (by omega) hpts
    (fun sol h => hcomp sol (List.mem_iff_getElem?.mpr ⟨0, h⟩))
    (fun i sol h => by rw [hcomp sol (List.mem_iff_getElem?.mpr ⟨i, h⟩)]; exact htemp)
    hcq (fun i s h => hslots s (List.mem_iff_getElem?.mpr ⟨i, h⟩))
  obtain ⟨sol, T2, point2, a1, a2, a3, a4⟩ := e3 q hqN
  rw [hq] at a1
  cases a1
  rw [hT] at a2
  cases a2
  rw [hp] at a3
  cases a3
  refine ⟨e1, ?_⟩
  rw [a4, deltaX_value_closed_form pow hpow T _ hpr]

/-- C1 at the one-point batch with temperature `300` at depth `1/10` (pressure
`128.24`). -/
theorem C1_closed_form_witness :
    (0 : ℝ) ≤ 1 / 10 ∧ (1.4 * 916 * (1 / 10) : ℝ) ≤ 395 ∧
    (evaluate_vector_field (fun x y : ℝ => x ^ y) ⟨⟨1, fun p : ℝ => p⟩, ⟨1, 0⟩⟩
      ⟨[[300]], [1 / 10]⟩ [[0]]).computed_quantities[0]?
      = some [(1500 * (300 - 73.2 * (1 - 1.4 * 916 * (1 / 10) / 395) ^ ((1 : ℝ) / 9)) : ℝ)] :=
  ⟨by norm_num, by norm_num,
    (C1_closed_form (fun x y : ℝ => x ^ y) (⟨⟨1, fun p : ℝ => p⟩, ⟨1, 0⟩⟩ : SimulatorAccess ℝ ℝ)
      ⟨[[300]], [1 / 10]⟩ [[0]] 0 [300] 300 (1 / 10) (fun _ _ _ => rfl) rfl (by simp)
      (by decide) rfl (by simp) rfl rfl rfl (by norm_num) (by norm_num)).2⟩

/-- C8: when the number of result slots differs from the number of sample
points the evaluator stops with `ExcInternalError` and leaves every result slot
as it was. -/
theorem C8_size_mismatch (pow : α → α → α) (this : SimulatorAccess P α)
    (input_data : DataPostprocessorInputs P α) (computed_quantities : List (List α))
    (h : computed_quantities.length ≠ input_data.solution_values.length) :
    (evaluate_vector_field pow this input_data computed_quantities).error
      = some Exc.ExcInternalError ∧
    (evaluate_vector_field pow this input_data computed_quantities).computed_quantities
      = computed_quantities := by
  simp [evaluate_vector_field, h]

/-- C8 at a batch of two sample points offered a single result slot. -/
theorem C8_size_mismatch_witness :
    ([[0]] : List (List ℝ)).length ≠ ([[300], [310]] : List (List ℝ)).length ∧
    (evaluate_vector_field (fun x y : ℝ => x ^ y) ⟨⟨1, fun p : ℝ => p⟩, ⟨1, 0⟩⟩
      ⟨[[300], [310]], [0, 0]⟩ [[0]]).error = some Exc.ExcInternalError ∧
    (evaluate_vector_field (fun x y : ℝ => x ^ y) ⟨⟨1, fun p : ℝ => p⟩, ⟨1, 0⟩⟩
      ⟨[[300], [310]], [0, 0]⟩ [[0]]).computed_quantities = [[0]] :=
  ⟨by decide,
    C8_size_mismatch (fun x y : ℝ => x ^ y) (⟨⟨1, fun p : ℝ => p⟩, ⟨1, 0⟩⟩ : SimulatorAccess ℝ ℝ)
      ⟨[[300], [310]], [0, 0]⟩ [[0]] (by decide)⟩

/-- C9, as the code has it: when the solution vector of the sample point at
index 0 has a length other than `n_components`, the evaluator stops with
`ExcInternalError` instead of reading a temperature from that vector, and
leaves every result slot as it was. -/
theorem C9_first_vector_checked (pow : α → α → α) (this : SimulatorAccess P α)
    (input_data : DataPostprocessorInputs P α) (computed_quantities : List (List α))
    (first_solution : List α)
    (h2 : input_data.solution_values[0]? = some first_solution)
    (h3 : first_solution.length ≠ this.introspection.n_components) :
    (evaluate_vector_field pow this input_data computed_quantities).error
      = some Exc.ExcInternalError ∧
    (evaluate_vector_field pow this input_data computed_quantities).computed_quantities
      = computed_quantities := by
  by_cases hcq : computed_quantities.length = input_data.solution_values.length
  · have hN : 0 < input_data.solution_values.length := by
      by_contra hge
      rw [List.getElem?_eq_none (by omega)] at h2
      cases h2
    have h0 : computed_quantities[0]? = some computed_quantities[0] :=
      List.getElem?_eq_getElem (by omega)
    by_cases h1 : (computed_quantities[0]).length = 1
    · simp [evaluate_vector_field, hcq, h0, h1, h2, h3]
    · simp [evaluate_vector_field, hcq, h0, h1]
  · simp [evaluate_vector_field, hcq]

/-- C9 at a batch of two points whose first solution vector has two components
where one is expected. -/
theorem C9_first_vector_checked_witness :
    ([300, 7] : List ℝ).length ≠ 1 ∧
    (evaluate_vector_field (fun x y : ℝ => x ^ y) ⟨⟨1, fun p : ℝ => p⟩, ⟨1, 0⟩⟩
      ⟨[[300, 7], [310]], [0, 0]⟩ [[0], [0]]).error = some Exc.ExcInternalError ∧
    (evaluate_vector_field (fun x y : ℝ => x ^ y) ⟨⟨1, fun p : ℝ => p⟩, ⟨1, 0⟩⟩
      ⟨[[300, 7], [310]], [0, 0]⟩ [[0], [0]]).computed_quantities = [[0], [0]] :=
  ⟨by decide,
    C9_first_vector_checked (fun x y : ℝ => x ^ y)
      (⟨⟨1, fun p : ℝ => p⟩, ⟨1, 0⟩⟩ : SimulatorAccess ℝ ℝ)
      ⟨[[300, 7], [310]], [0, 0]⟩ [[0], [0]] [300, 7] rfl (by decide)⟩

/-- C9 fails at the batch of two points at depth `0` whose SECOND solution
vector `[310, 7]` has two components where one is expected: no error is
signalled, the temperature `310` is read from that vector, and both slots are
written (`1500*(300 - 73.2)` and `1500*(310 - 73.2)`). -/
theorem C9_counterexample :
    ([310, 7] : List ℝ).length ≠ 1 ∧
    (evaluate_vector_field (fun x y : ℝ => x ^ y) ⟨⟨1, fun p : ℝ => p⟩, ⟨1, 0⟩⟩
      ⟨[[300], [310, 7]], [0, 0]⟩ [[0], [0]]).error = none ∧
    (evaluate_vector_field (fun x y : ℝ => x ^ y) ⟨⟨1, fun p : ℝ => p⟩, ⟨1, 0⟩⟩
      ⟨[[300], [310, 7]], [0, 0]⟩ [[0], [0]]).computed_quantities
      = [[340200], [355200]] := by
  refine ⟨by decide, ?_, ?_⟩
  · simp [evaluate_vector_field, for_loop, loop_body]
  · simp [evaluate_vector_field, for_loop, loop_body, deltaX_value, T_liquidus]
    norm_num

end deltaX

/-! ## The configuration component: claims C3, C4, C5 -/

namespace TemperatureAnomaly

/-- Parsing a store whose three entries hold values matching the declared
patterns succeeds, leaves the store as it was, and yields the integer and the
two negated flags. -/
theorem parse_parameters_of_valid (self : TemperatureAnomaly) (prm : ParameterHandler)
    (e_slices e_surface e_bottom : Entry)
    (h1 : prm.entries (section_path prm.subsection_path) "Number of depth slices"
      = some e_slices)
    (h2 : prm.entries (section_path prm.subsection_path) "Use minimal temperature for surface"
      = some e_surface)
    (h3 : prm.entries (section_path prm.subsection_path) "Use maximal temperature for bottom"
      = some e_bottom)
    (v1 : matches_pattern (Patterns.Integer 1 max_int_value) e_slices.value = true)
    (v2 : matches_pattern Patterns.Bool e_surface.value = true)
    (v3 : matches_pattern Patterns.Bool e_bottom.value = true) :
    ∃ n, string_to_int e_slices.value = some n ∧ 1 ≤ n ∧
      parse_parameters self prm
        = .ok (⟨n, !decide (e_surface.value = "true"), !decide (e_bottom.value = "true")⟩,
            prm) := by
  have hp := section_path_enter prm
  obtain ⟨n, hn, hlow, _, hget⟩ := get_integer_of_pattern
    (((prm.enter_subsection "Postprocess").enter_subsection "Visualization").enter_subsection
      "deltaX") "Number of depth slices" e_slices 1 max_int_value (by decide)
    (by rw [hp]; exact h1) v1
  have hb2 := get_bool_of_pattern
    (((prm.enter_subsection "Postprocess").enter_subsection "Visualization").enter_subsection
      "deltaX") "Use minimal temperature for surface" e_surface (by rw [hp]; exact h2) v2
  have hb3 := get_bool_of_pattern
    (((prm.enter_subsection "Postprocess").enter_subsection "Visualization").enter_subsection
      "deltaX") "Use maximal temperature for bottom" e_bottom (by rw [hp]; exact h3) v3
  exact ⟨n, hn, hlow, parse_parameters_eq self prm n _ _ hget hb2 hb3⟩

/-- C3: declaring the entries in any store and parsing that store right away
succeeds and yields `n_slices = 20`, `extrapolate_surface = false` and
`extrapolate_bottom = false`, whatever the object held before. -/
theorem C3_defaults_round_trip (self : TemperatureAnomaly) (prm : ParameterHandler) :
    ∃ declared, declare_parameters prm = .ok declared ∧
      parse_parameters self declared = .ok (⟨20, false, false⟩, declared) := by
  obtain ⟨d, hd, hpath, ⟨e1, a1, a2, _⟩, ⟨e3, c1, c2, _⟩, ⟨e2, b1, b2, _⟩⟩ :=
    declare_parameters_ok prm
  refine ⟨d, hd, ?_⟩
  rw [← hpath] at a1 b1 c1
  obtain ⟨n, hn, _, hparse⟩ := parse_parameters_of_valid self d e1 e2 e3 a1 b1 c1
    (by rw [a2]; decide) (by rw [b2]; decide) (by rw [c2]; decide)
  have h20 : string_to_int "20" = some 20 := by decide
  rw [a2, h20] at hn
  cases hn
  rw [hparse, b2, c2]
  rfl

/-- C4: when the store holds, under `Postprocess / Visualization / deltaX`,
values that match the declared patterns, `parse_parameters` succeeds and sets
`n_slices` to the integer that "Number of depth slices" holds,
`extrapolate_surface` to the negation of "Use minimal temperature for surface"
and `extrapolate_bottom` to the negation of "Use maximal temperature for
bottom". -/
theorem C4_parse_reads_and_inverts (self : TemperatureAnomaly) (prm : ParameterHandler)
    (e_slices e_surface e_bottom : Entry)
    (h1 : prm.entries (section_path prm.subsection_path) "Number of depth slices"
      = some e_slices)
    (h2 : prm.entries (section_path prm.subsection_path) "Use minimal temperature for surface"
      = some e_surface)
    (h3 : prm.entries (section_path prm.subsection_path) "Use maximal temperature for bottom"
      = some e_bottom)
    (v1 : matches_pattern (Patterns.Integer 1 max_int_value) e_slices.value = true)
    (v2 : matches_pattern Patterns.Bool e_surface.value = true)
    (v3 : matches_pattern Patterns.Bool e_bottom.value = true) :
    ∃ n, string_to_int e_slices.value = some n ∧
      parse_parameters self prm
        = .ok (⟨n, !decide (e_surface.value = "true"), !decide (e_bottom.value = "true")⟩,
            prm) := by
  obtain ⟨n, hn, _, hparse⟩ :=
    parse_parameters_of_valid self prm e_slices e_surface e_bottom h1 h2 h3 v1 v2 v3
  exact ⟨n, hn, hparse⟩

/-- C4 at the store that holds `7`, `false` for the surface flag and `true`
for the bottom flag. -/
theorem C4_parse_reads_and_inverts_witness :
    matches_pattern (Patterns.Integer 1 max_int_value) "7" = true ∧
    ∃ n, string_to_int "7" = some n ∧
      parse_parameters ⟨0, false, false⟩ sample_store
        = .ok (⟨n, !decide ("false" = "true"), !decide ("true" = "true")⟩, sample_store) :=
  ⟨by decide,
    C4_parse_reads_and_inverts ⟨0, false, false⟩ sample_store
      ⟨"7", "20", Patterns.Integer 1 max_int_value, ""⟩
      ⟨"false", "true", Patterns.Bool, ""⟩
      ⟨"true", "true", Patterns.Bool, ""⟩
      rfl rfl rfl (by decide) (by decide) (by decide)⟩

theorem declare_parameters_declared_in (prm : ParameterHandler) :
    ∃ declared, declare_parameters prm = .ok declared ∧
      declared.subsection_path = prm.subsection_path ∧
      declared_in declared (section_path prm.subsection_path) := by
  obtain ⟨d, hd, hpath, ⟨e1, a1, a2, a3⟩, ⟨e3, c1, c2, c3⟩, ⟨e2, b1, b2, b3⟩⟩ :=
    declare_parameters_ok prm
  exact ⟨d, hd, hpath, ⟨e1, a1, a3, by rw [a2]; decide⟩, ⟨e3, c1, c3, by rw [c2]; decide⟩,
    ⟨e2, b1, b3, by rw [b2]; decide⟩⟩

theorem integer_pattern_rejects (v : String)
    (h : ∀ i, string_to_int v = some i → i < 1) :
    matches_pattern (Patterns.Integer 1 max_int_value) v = false := by
  simp only [matches_pattern]
  cases hs : string_to_int v with
  | none => rfl
  | some i =>
    have := h i hs
    have hb : (1 : Int) ≤ max_int_value := by decide
    simp only [hb, if_true, decide_eq_false_iff_not, not_and]
    intro h1
    omega

theorem bool_pattern_rejects (v : String) (h1 : v ≠ "true") (h2 : v ≠ "false") :
    matches_pattern Patterns.Bool v = false := by
  simp [matches_pattern, h1, h2]

theorem leave_section_path (stored : ParameterHandler) (path : List String)
    (h : stored.subsection_path = section_path path) :
    (stored.leave_subsection.leave_subsection.leave_subsection).subsection_path = path := by
  simp [ParameterHandler.leave_subsection, h, section_path]

/-- The host's sequence fails as soon as the input assigns to a declared entry
a value that the entry's pattern rejects. -/
theorem configure_fails_of_rejected (self : TemperatureAnomaly) (prm : ParameterHandler)
    (input : List (String × String)) (name v : String) (pattern : Patterns)
    (hmem : (name, v) ∈ input)
    (hdecl : ∀ d : ParameterHandler, declared_in d (section_path prm.subsection_path) →
      d.holds_valid (section_path prm.subsection_path) name pattern)
    (hbad : matches_pattern pattern v = false) :
    ∃ e, configure self prm input = .error e := by
  obtain ⟨d, hd, hpath, hin⟩ := declare_parameters_declared_in prm
  have hp := section_path_enter d
  rw [hpath] at hp
  have hv : ParameterHandler.holds_valid
      (((d.enter_subsection "Postprocess").enter_subsection "Visualization").enter_subsection
        "deltaX")
      (((d.enter_subsection "Postprocess").enter_subsection "Visualization").enter_subsection
        "deltaX").subsection_path name pattern := by
    rw [hp]
    exact hdecl d hin
  obtain ⟨e, he⟩ := foldlM_set_rejects input _ name v pattern hmem hv hbad
  refine ⟨e, ?_⟩
  simp only [configure, hd, bind, Except.bind, he]

/-- Whenever the host's sequence succeeds the parsed number of depth slices is
at least one. -/
theorem configure_ok_n_slices (self : TemperatureAnomaly) (prm : ParameterHandler)
    (input : List (String × String)) (cfg : TemperatureAnomaly)
    (h : configure self prm input = .ok cfg) : 1 ≤ cfg.n_slices := by
  obtain ⟨d, hd, hpath, hin⟩ := declare_parameters_declared_in prm
  have hp := section_path_enter d
  rw [hpath] at hp
  cases hfold : input.foldlM (fun store line => ParameterHandler.set store line.1 line.2)
      (((d.enter_subsection "Postprocess").enter_subsection "Visualization").enter_subsection
        "deltaX") with
  | error e =>
    simp only [configure, hd, bind, Except.bind, hfold] at h
    cases h
  | ok stored =>
    obtain ⟨q1, q2⟩ := foldlM_set_preserves input _ stored hfold
    rw [hp] at q1 q2
    obtain ⟨⟨e1, a1, _, a3⟩, ⟨e3, c1, _, c3⟩, ⟨e2, b1, _, b3⟩⟩ :
        declared_in stored (section_path prm.subsection_path) :=
      ⟨q2 _ _ hin.1, q2 _ _ hin.2.1, q2 _ _ hin.2.2⟩
    have hl := leave_section_path stored prm.subsection_path q1
    obtain ⟨n, _, hn, hparse⟩ := parse_parameters_of_valid self
      stored.leave_subsection.leave_subsection.leave_subsection e1 e2 e3
      (by rw [hl]; exact a1) (by rw [hl]; exact b1) (by rw [hl]; exact c1) a3 b3 c3
    simp only [configure, hd, bind, Except.bind, hfold, hparse, pure, Except.pure,
      Except.ok.injEq] at h
    rw [← h]
    exact hn

/-- C5: in the host's sequence of declaring, reading the input and parsing,
configuration fails whenever the input gives "Number of depth slices" a value
that is no integer or an integer below 1 (such as `0`), or gives one of the two
flags a value other than `true` and `false`; and every configuration that
succeeds leaves `n_slices >= 1`. -/
theorem C5_validation (self : TemperatureAnomaly) (prm : ParameterHandler)
    (input : List (String × String)) :
    (∀ v, ("Number of depth slices", v) ∈ input →
      (∀ i, string_to_int v = some i → i < 1) →
      ∃ e, configure self prm input = .error e) ∧
    (∀ v, ("Use minimal temperature for surface", v) ∈ input →
      v ≠ "true" → v ≠ "false" →
      ∃ e, configure self prm input = .error e) ∧
    (∀ v, ("Use maximal temperature for bottom", v) ∈ input →
      v ≠ "true" → v ≠ "false" →
      ∃ e, configure self prm input = .error e) ∧
    (∀ cfg, configure self prm input = .ok cfg → 1 ≤ cfg.n_slices) := by
  refine ⟨?_, ?_, ?_, ?_⟩
  · intro v hmem hbad
    exact configure_fails_of_rejected self prm input _ v _ hmem (fun _ hd => hd.1)
      (integer_pattern_rejects v hbad)
  · intro v hmem h1 h2
    exact configure_fails_of_rejected self prm input _ v _ hmem (fun _ hd => hd.2.2)
      (bool_pattern_rejects v h1 h2)
  · intro v hmem h1 h2
    exact configure_fails_of_rejected self prm input _ v _ hmem (fun _ hd => hd.2.1)
      (bool_pattern_rejects v h1 h2)
  · intro cfg h
    exact configure_ok_n_slices self prm input cfg h

/-- C5 at two inputs on the empty store: `0` depth slices is refused, and the
input with `5` depth slices and the bottom flag `false` is accepted with
`n_slices = 5 >= 1`. -/
theorem C5_validation_witness :
    (∃ e, configure ⟨0, false, false⟩ ParameterHandler.empty
      [("Number of depth slices", "0")] = .error e) ∧
    configure ⟨0, false, false⟩ ParameterHandler.empty
      [("Number of depth slices", "5"), ("Use maximal temperature for bottom", "false")]
      = .ok ⟨5, false, true⟩ ∧
    (1 : Int) ≤ (⟨5, false, true⟩ : TemperatureAnomaly).n_slices :=
  ⟨(C5_validation ⟨0, false, false⟩ ParameterHandler.empty
      [("Number of depth slices", "0")]).1 "0" (by simp) (by decide),
    rfl,
    (C5_validation ⟨0, false, false⟩ ParameterHandler.empty
      [("Number of depth slices", "5"), ("Use maximal temperature for bottom", "false")]).2.2.2
      ⟨5, false, true⟩ rfl⟩

end TemperatureAnomaly
